import Mathlib

/-!
Verification of the image pipeline of the photo-frame-generator backend
(src/backend/app.py): color normalization (convert_to_srgb), slot fitting
(fit_image_to_slot), the /generate composition loop, and the /save_locally
file-naming logic.

Modelling conventions:
* A PIL image is a rectangular pixel grid plus the metadata entries of
  img.info that the program reads (icc_profile presence, the designated
  transparent color of a transparency entry, dpi).  Pixels are stored as
  RGBA quadruples; for modes without an alpha channel the stored alpha
  band is not meaningful and the gray value of an L image is stored in
  the r band.
* External library computations whose outputs the program never inspects
  (resampling kernels, the ICC transform pixel values, the sharpening
  filters) are parameters, collected in the PILOps structure.  The ICC
  transform can fail, which models the exception caught at app.py line 57.
* Python float arithmetic on image dimensions is modelled by exact
  rational arithmetic; int() truncation of the nonnegative quotients that
  occur here is the floor, so every dimension formula is expressed with
  Nat division (the floor of the corresponding quotient).  Python floor
  division // on possibly-negative ints is Int.fdiv.
* A source or target with a zero dimension makes the Python code raise
  ZeroDivisionError; per the spec (GeometryError) this is undefined
  behavior, and the theorems assume positive dimensions where relevant.
-/

namespace PhotoFrame

/-- The PIL pixel modes this program can encounter on its conversion paths.
Other special modes behave like P or L for every property proved here. -/
inductive Mode where
  | RGB
  | RGBA
  | L
  | P
deriving DecidableEq

/-- One pixel, stored as an RGBA quadruple of 8-bit channel values. -/
structure Pixel where
  r : Nat
  g : Nat
  b : Nat
  a : Nat
deriving DecidableEq

/-- A decoded PIL image: size, mode, pixel grid, palette (used only in mode
P), and the img.info entries the program reads: presence of icc_profile
(the blob itself is abstracted to a tag), the designated transparent color
of a transparency entry when one is present (for mode L the gray value sits
in the r band, for mode P the palette index sits in the r band), and the
dpi pair. -/
structure Image where
  width : Nat
  height : Nat
  mode : Mode
  pix : Nat → Nat → Pixel
  palette : Nat → Pixel
  icc : Option Nat
  transparency : Option Pixel
  dpi : Option (Nat × Nat)

instance : Inhabited Image :=
  ⟨⟨0, 0, Mode.RGBA, fun _ _ => ⟨0, 0, 0, 0⟩, fun _ => ⟨0, 0, 0, 0⟩, none, none, none⟩⟩

/-- PIL Image.convert restricted to the two target modes this program uses
(RGB and RGBA).  Converting to the current mode yields a value-identical
image (the early copy return, before any transparency handling).  RGBA to
RGB drops the alpha band; L replicates the gray value; P looks the palette
up; converting to RGB keeps the transparency entry, translated to the
target representation (palette or gray lookup).  Converting a raster that
designates a transparent color to RGBA takes the convert_transparent
branch: the color is promoted to an alpha channel that is 0 at matching
pixels and 255 elsewhere, and the transparency entry is deleted from the
result; without a transparency entry the new alpha band is fully opaque.
The info dictionary is otherwise carried over.  The program never converts
to L or P, so those targets return the image unchanged. -/
def Image.convert (img : Image) (m : Mode) : Image :=
  if img.mode = m then img else
  match m with
  | Mode.RGB =>
      { img with
        mode := Mode.RGB
        pix := fun i j =>
          match img.mode with
          | Mode.RGB => img.pix i j
          | Mode.RGBA => ⟨(img.pix i j).r, (img.pix i j).g, (img.pix i j).b, 255⟩
          | Mode.L => ⟨(img.pix i j).r, (img.pix i j).r, (img.pix i j).r, 255⟩
          | Mode.P => ⟨(img.palette (img.pix i j).r).r, (img.palette (img.pix i j).r).g,
              (img.palette (img.pix i j).r).b, 255⟩
        transparency :=
          match img.mode, img.transparency with
          | Mode.L, some t => some ⟨t.r, t.r, t.r, 255⟩
          | Mode.P, some t => some ⟨(img.palette t.r).r, (img.palette t.r).g,
              (img.palette t.r).b, 255⟩
          | _, tr => tr }
  | Mode.RGBA =>
      match img.transparency with
      | some t =>
          { img with
            mode := Mode.RGBA
            pix := fun i j =>
              match img.mode with
              | Mode.RGB => ⟨(img.pix i j).r, (img.pix i j).g, (img.pix i j).b,
                  if (img.pix i j).r = t.r ∧ (img.pix i j).g = t.g ∧ (img.pix i j).b = t.b
                  then 0 else 255⟩
              | Mode.RGBA => img.pix i j
              | Mode.L => ⟨(img.pix i j).r, (img.pix i j).r, (img.pix i j).r,
                  if (img.pix i j).r = t.r then 0 else 255⟩
              | Mode.P => ⟨(img.palette (img.pix i j).r).r, (img.palette (img.pix i j).r).g,
                  (img.palette (img.pix i j).r).b,
                  if (img.pix i j).r = t.r then 0 else 255⟩
            transparency := none }
      | none =>
          { img with
            mode := Mode.RGBA
            pix := fun i j =>
              match img.mode with
              | Mode.RGB => ⟨(img.pix i j).r, (img.pix i j).g, (img.pix i j).b, 255⟩
              | Mode.RGBA => img.pix i j
              | Mode.L => ⟨(img.pix i j).r, (img.pix i j).r, (img.pix i j).r, 255⟩
              | Mode.P => ⟨(img.palette (img.pix i j).r).r, (img.palette (img.pix i j).r).g,
                  (img.palette (img.pix i j).r).b, 255⟩ }
  | Mode.L => img
  | Mode.P => img

/-- app.py lines 30-33: if the original mode is neither RGB nor RGBA,
convert to RGB first. -/
def preNorm (img : Image) : Image :=
  if img.mode ≠ Mode.RGB ∧ img.mode ≠ Mode.RGBA then img.convert Mode.RGB else img

/-- app.py line 45: output mode of the ICC transform is RGBA when the
original mode was RGBA or the (possibly pre-converted) image carries a
transparency entry, else RGB. -/
def targetMode (original : Mode) (img : Image) : Mode :=
  if original = Mode.RGBA ∨ img.transparency.isSome = true then Mode.RGBA else Mode.RGB

/-- The ICC machinery of ImageCms (createProfile plus profileToProfile with
relative colorimetric intent, app.py lines 42-55), abstracted: given the
image and the requested output mode it either returns the transformed pixel
grid or fails (none), modelling the exception caught at line 57. -/
abbrev CmsTransform := Image → Mode → Option (Nat → Nat → Pixel)

/-- Embedding of convert_to_srgb (app.py lines 23-64).  profileToProfile
with outputMode delivers an image in exactly that mode; its pixel values
come from the cms parameter.  original_mode of the source is img.mode here,
recorded before the pre-conversion. -/
def convert_to_srgb (cms : CmsTransform) (img : Image) : Image :=
  if (preNorm img).icc.isSome then
    match cms (preNorm img) (targetMode img.mode (preNorm img)) with
    | some grid =>
        { preNorm img with mode := targetMode img.mode (preNorm img), pix := grid }
    | none => (preNorm img).convert Mode.RGBA
  else
    (preNorm img).convert Mode.RGBA

theorem convert_rgba_mode (img : Image) : (img.convert Mode.RGBA).mode = Mode.RGBA := by
  unfold Image.convert
  split
  case isTrue h => exact h
  case isFalse h =>
    dsimp only
    cases htr : img.transparency <;> rfl

theorem convert_rgb_mode (img : Image) : (img.convert Mode.RGB).mode = Mode.RGB := by
  unfold Image.convert
  split
  case isTrue h => exact h
  case isFalse h => rfl

theorem convert_self (img : Image) (m : Mode) (h : img.mode = m) : img.convert m = img := by
  unfold Image.convert
  rw [if_pos h]

/-- Conversion to RGBA of an image that carries neither an alpha band nor
a designated transparent color makes every pixel fully opaque. -/
theorem convert_rgba_pix_a (img : Image) (h : img.mode ≠ Mode.RGBA)
    (htr : img.transparency = none) (i j : Nat) :
    ((img.convert Mode.RGBA).pix i j).a = 255 := by
  unfold Image.convert
  rw [if_neg h]
  dsimp only
  rw [htr]
  dsimp only
  cases hm : img.mode with
  | RGBA => exact absurd hm h
  | RGB => rfl
  | L => rfl
  | P => rfl

/-- The pre-conversion to RGB keeps the absence of a transparency entry. -/
theorem preNorm_transparency_none (img : Image) (h : img.transparency = none) :
    (preNorm img).transparency = none := by
  unfold preNorm
  split
  case isTrue hc =>
    unfold Image.convert
    split
    case isTrue hm => exact h
    case isFalse hm =>
      dsimp only
      rw [h]
      cases hm2 : img.mode <;> rfl
  case isFalse hc => exact h

theorem preNorm_mode_not_rgba (img : Image) (h : img.mode ≠ Mode.RGBA) :
    (preNorm img).mode ≠ Mode.RGBA := by
  unfold preNorm
  split
  case isTrue hc => rw [convert_rgb_mode]; simp
  case isFalse hc => exact h

/-- C6: the raster returned by the Normalizer has channel layout RGB or
RGBA (never L, P or any other mode). -/
theorem srgb_mode_rgb_or_rgba (cms : CmsTransform) (img : Image) :
    (convert_to_srgb cms img).mode = Mode.RGB ∨ (convert_to_srgb cms img).mode = Mode.RGBA := by
  unfold convert_to_srgb
  split
  · -- an icc profile is present
    split
    · -- the transform succeeded: the mode is the requested output mode
      unfold targetMode
      split
      · exact Or.inr rfl
      · exact Or.inl rfl
    · exact Or.inr (convert_rgba_mode _)
  · exact Or.inr (convert_rgba_mode _)

/-- C4: whenever the ICC-to-sRGB transform fails (and also when no profile
is present at all), the Normalizer returns the plain RGBA conversion of the
(format-normalized) input; being a Lean function, convert_to_srgb is total,
so the failure is never surfaced to the caller. -/
theorem srgb_fallback_on_cms_failure (cms : CmsTransform) (img : Image)
    (hfail : cms (preNorm img) (targetMode img.mode (preNorm img)) = none) :
    convert_to_srgb cms img = (preNorm img).convert Mode.RGBA := by
  unfold convert_to_srgb
  split
  · rw [hfail]
  · rfl

/-- Always-failing ICC transform, for exercising the fallback path. -/
def cmsFail : CmsTransform := fun _ _ => none

/-- ICC transform that always succeeds, returning the untransformed pixel
grid (color manipulation abstracted away). -/
def cmsId : CmsTransform := fun img _ => some img.pix

/-- A solid-color image of the given size and mode, without metadata. -/
def solid (w h : Nat) (m : Mode) (p : Pixel) : Image :=
  ⟨w, h, m, fun _ _ => p, fun _ => p, none, none, none⟩

def rgbWithProfile : Image := { solid 2 2 Mode.RGB ⟨200, 10, 10, 255⟩ with icc := some 0 }

theorem srgb_fallback_on_cms_failure_witness :
    convert_to_srgb cmsFail rgbWithProfile = (preNorm rgbWithProfile).convert Mode.RGBA :=
  srgb_fallback_on_cms_failure cmsFail rgbWithProfile rfl

/-- An RGB raster with a designated transparent color equal to its own
pixel color and no ICC profile: an RGB PNG carrying a tRNS chunk decodes
like this. -/
def rgbTransparent : Image :=
  { solid 2 2 Mode.RGB ⟨9, 9, 9, 255⟩ with transparency := some ⟨9, 9, 9, 255⟩ }

/-- C10 (counterexample): on this profile-free input with no alpha channel
the Normalizer promotes the designated transparent color to alpha 0, so it
is not the case that every output pixel of a profile-free no-alpha input
is fully opaque. -/
theorem srgb_transparent_pixel_cx :
    rgbTransparent.icc = none ∧ rgbTransparent.mode ≠ Mode.RGBA ∧
      ((convert_to_srgb cmsId rgbTransparent).pix 0 0).a = 0 :=
  ⟨rfl, by decide, rfl⟩

/-- C10 (amended): a profile-free input comes out of the Normalizer in
mode RGBA; if the input had no alpha channel and designates no transparent
color, every output pixel is fully opaque; and an input that was already
RGBA is returned unchanged. -/
theorem srgb_profile_free_rgba_amended (cms : CmsTransform) (img : Image)
    (hicc : img.icc = none) :
    (convert_to_srgb cms img).mode = Mode.RGBA ∧
    (img.mode ≠ Mode.RGBA → img.transparency = none →
      ∀ i j, ((convert_to_srgb cms img).pix i j).a = 255) ∧
    (img.mode = Mode.RGBA → convert_to_srgb cms img = img) := by
  have hpre : (preNorm img).icc = none := by
    unfold preNorm
    split
    · unfold Image.convert
      split
      · exact hicc
      · exact hicc
    · exact hicc
  have hmain : convert_to_srgb cms img = (preNorm img).convert Mode.RGBA := by
    unfold convert_to_srgb
    split
    case isTrue hs => rw [hpre] at hs; exact absurd hs (by simp)
    case isFalse => rfl
  refine ⟨hmain ▸ convert_rgba_mode _, ?_, ?_⟩
  · intro hne htr i j
    rw [hmain]
    exact convert_rgba_pix_a (preNorm img) (preNorm_mode_not_rgba img hne)
      (preNorm_transparency_none img htr) i j
  · intro hm
    rw [hmain]
    have hp : preNorm img = img := by
      unfold preNorm
      rw [if_neg]
      intro hc
      exact hc.2 hm
    rw [hp]
    exact convert_self img Mode.RGBA hm

def plainRGB : Image := solid 2 2 Mode.RGB ⟨5, 6, 7, 255⟩

def plainRGBA : Image := solid 2 2 Mode.RGBA ⟨5, 6, 7, 9⟩

theorem srgb_profile_free_rgba_amended_witness :
    ((convert_to_srgb cmsId plainRGB).pix 0 0).a = 255 ∧
      convert_to_srgb cmsId plainRGBA = plainRGBA :=
  ⟨(srgb_profile_free_rgba_amended cmsId plainRGB rfl).2.1 (by decide) rfl 0 0,
   (srgb_profile_free_rgba_amended cmsId plainRGBA rfl).2.2 rfl⟩

/-! ## Slot Fitter (fit_image_to_slot, app.py lines 66-135) -/

/-- The two resampling kernels the program selects. -/
inductive Kernel where
  | BICUBIC
  | LANCZOS
deriving DecidableEq

/-- The external PIL computations whose pixel-level outputs the program
never branches on: resampled pixel grids of Image.resize, the ICC
transform, the UnsharpMask filter (radius, percent, threshold) and the
ImageEnhance.Sharpness enhancement (factor). -/
structure PILOps where
  resample : Kernel → Image → Nat → Nat → Nat → Nat → Pixel
  cms : CmsTransform
  unsharp : ℚ → Nat → Nat → Image → Nat → Nat → Pixel
  sharpness : ℚ → Image → Nat → Nat → Pixel

/-- PIL Image.resize: the result has exactly the requested size and the
mode and info of the source; the resampled pixel content comes from the
kernel. -/
def resize (P : PILOps) (img : Image) (w h : Nat) (k : Kernel) : Image :=
  { img with width := w, height := h, pix := P.resample k img w h }

/-- app.py lines 83-90: upscale when the source is smaller than the slot in
a dimension.  scale_factor = max(slot_w/width, slot_h/height) and the new
size is (int(width*scale), int(height*scale)).  Over exact arithmetic:
scale_factor > 1 iff width < slot_w or height < slot_h; when
slot_w/width is the larger quotient, int(width*scale) = slot_w and
int(height*scale) = height*slot_w/width rounded down (Nat division), and
symmetrically otherwise. -/
def upscaleStage (P : PILOps) (img : Image) (slot_w slot_h : Nat)
    (upscale_if_small : Bool) : Image :=
  if upscale_if_small = true ∧ (img.width < slot_w ∨ img.height < slot_h) then
    if img.width < slot_w ∨ img.height < slot_h then
      if slot_w * img.height ≥ slot_h * img.width then
        resize P img slot_w (img.height * slot_w / img.width) Kernel.BICUBIC
      else
        resize P img (img.width * slot_h / img.height) slot_h Kernel.BICUBIC
    else img
  else img

/-- app.py lines 92-101: the aspect-preserving fit size (new_width,
new_height).  img_ratio > slot_ratio is width*slot_h > slot_w*height over
positive sizes; int(slot_h*img_ratio) = slot_h*width/height rounded down
and int(slot_w/img_ratio) = slot_w*height/width rounded down. -/
def fitCandidate (w h slot_w slot_h : Nat) : Nat × Nat :=
  if w * slot_h > slot_w * h then (slot_h * w / h, slot_h)
  else (slot_w, slot_w * h / w)

/-- app.py lines 103-108: when the current raster is more than double the
fit size in a dimension, first resize to an intermediate size capped at
twice the fit size (and at the current size). -/
def stagedDownsample (P : PILOps) (img : Image) (new_w new_h : Nat) : Image :=
  if new_w * 2 < img.width ∨ new_h * 2 < img.height then
    resize P img (min img.width (new_w * 2)) (min img.height (new_h * 2)) Kernel.LANCZOS
  else img

/-- app.py lines 114-122: UnsharpMask(radius 1.0, percent 150, threshold 3)
followed by Sharpness enhancement with factor 1.3.  Both filters keep the
size, mode and info of their input. -/
def sharpenStage (P : PILOps) (img : Image) : Image :=
  let img1 := { img with pix := P.unsharp 1 150 3 img }
  { img1 with pix := P.sharpness ((13 : ℚ) / 10) img1 }

/-- PIL Image.crop with box (l, t, r, b): the result has size
(r - l, b - t); pixels whose source coordinate falls outside the source
raster are zero-filled; info is carried over. -/
def Image.crop (img : Image) (l t r b : Int) : Image :=
  { img with
    width := (r - l).toNat
    height := (b - t).toNat
    pix := fun i j =>
      if 0 ≤ l + i ∧ l + i < img.width ∧ 0 ≤ t + j ∧ t + j < img.height then
        img.pix (l + i).toNat (t + j).toNat
      else ⟨0, 0, 0, 0⟩ }

/-- app.py lines 131-133: set the dpi entry to (target_dpi, target_dpi)
when it is absent or differs from that value. -/
def stampDpi (img : Image) (target_dpi : Nat) : Image :=
  if img.dpi ≠ some (target_dpi, target_dpi) then
    { img with dpi := some (target_dpi, target_dpi) }
  else img

theorem stampDpi_width (img : Image) (d : Nat) : (stampDpi img d).width = img.width := by
  unfold stampDpi
  split <;> rfl

theorem stampDpi_height (img : Image) (d : Nat) : (stampDpi img d).height = img.height := by
  unfold stampDpi
  split <;> rfl

theorem stampDpi_dpi (img : Image) (d : Nat) : (stampDpi img d).dpi = some (d, d) := by
  unfold stampDpi
  split
  case isTrue h => rfl
  case isFalse h => exact not_ne_iff.mp h

/-- Embedding of fit_image_to_slot (app.py lines 66-135).  dpi_info at line
82 is computed but never used afterwards, mirrored by the unused binding.
Python // is Int.fdiv. -/
def fit_image_to_slot (P : PILOps) (img : Image) (slot_w slot_h : Nat)
    (sharpen upscale_if_small : Bool) (target_dpi : Nat) : Image :=
  let _dpi_info := img.dpi.getD (target_dpi, target_dpi)
  let img1 := upscaleStage P img slot_w slot_h upscale_if_small
  let c := fitCandidate img1.width img1.height slot_w slot_h
  let new_width := c.1
  let new_height := c.2
  let img2 := stagedDownsample P img1 new_width new_height
  let img3 := resize P img2 new_width new_height Kernel.LANCZOS
  let img4 := if sharpen = true then sharpenStage P img3 else img3
  let left : Int := ((new_width : Int) - (slot_w : Int)).fdiv 2
  let top : Int := ((new_height : Int) - (slot_h : Int)).fdiv 2
  let right : Int := left + (slot_w : Int)
  let bottom : Int := top + (slot_h : Int)
  let img5 := img4.crop left top right bottom
  stampDpi img5 target_dpi

theorem fit_dims (P : PILOps) (img : Image) (slot_w slot_h : Nat)
    (sharpen upscale_if_small : Bool) (target_dpi : Nat) :
    (fit_image_to_slot P img slot_w slot_h sharpen upscale_if_small target_dpi).width = slot_w ∧
    (fit_image_to_slot P img slot_w slot_h sharpen upscale_if_small target_dpi).height = slot_h := by
  unfold fit_image_to_slot
  dsimp only
  constructor
  · rw [stampDpi_width]
    simp only [Image.crop]
    omega
  · rw [stampDpi_height]
    simp only [Image.crop]
    omega

/-- C1: the raster returned by the Slot Fitter has dimensions exactly
(target_w, target_h), for every source and target of positive size. -/
theorem fit_output_dims_eq_slot (P : PILOps) (img : Image) (slot_w slot_h : Nat)
    (sharpen upscale_if_small : Bool) (target_dpi : Nat)
    (hw : 0 < img.width) (hh : 0 < img.height) (hsw : 0 < slot_w) (hsh : 0 < slot_h) :
    (fit_image_to_slot P img slot_w slot_h sharpen upscale_if_small target_dpi).width = slot_w ∧
    (fit_image_to_slot P img slot_w slot_h sharpen upscale_if_small target_dpi).height = slot_h :=
  fit_dims P img slot_w slot_h sharpen upscale_if_small target_dpi

/-- A resampler whose pixel values are irrelevant to the proved claims. -/
def constResample : Kernel → Image → Nat → Nat → Nat → Nat → Pixel :=
  fun _ _ _ _ _ _ => ⟨0, 0, 0, 255⟩

/-- PIL operations with an always-failing ICC transform. -/
def P0 : PILOps :=
  ⟨constResample, cmsFail, fun _ _ _ _ _ _ => ⟨0, 0, 0, 255⟩, fun _ _ _ _ => ⟨0, 0, 0, 255⟩⟩

/-- PIL operations with an always-succeeding ICC transform. -/
def Pok : PILOps :=
  ⟨constResample, cmsId, fun _ _ _ _ _ _ => ⟨0, 0, 0, 255⟩, fun _ _ _ _ => ⟨0, 0, 0, 255⟩⟩

theorem fit_output_dims_eq_slot_witness :
    (fit_image_to_slot P0 (solid 100 100 Mode.RGBA ⟨255, 0, 0, 255⟩) 530 355 false true 300).width
        = 530 ∧
    (fit_image_to_slot P0 (solid 100 100 Mode.RGBA ⟨255, 0, 0, 255⟩) 530 355 false true 300).height
        = 355 :=
  fit_output_dims_eq_slot P0 (solid 100 100 Mode.RGBA ⟨255, 0, 0, 255⟩) 530 355 false true 300
    (by decide) (by decide) (by decide) (by decide)

theorem fdiv2_bounds (z : Int) (hz : 0 ≤ z) : 0 ≤ z.fdiv 2 ∧ z.fdiv 2 ≤ z := by
  obtain ⟨n, rfl⟩ := Int.eq_ofNat_of_zero_le hz
  have h : ((n : Int)).fdiv 2 = ((n / 2 : Nat) : Int) := by
    cases n with
    | zero => rfl
    | succ m => rfl
  rw [h]
  omega

theorem fitCandidate_ge (w h slot_w slot_h : Nat) (hw : 0 < w) (hh : 0 < h) :
    slot_w ≤ (fitCandidate w h slot_w slot_h).1 ∧
    slot_h ≤ (fitCandidate w h slot_w slot_h).2 := by
  unfold fitCandidate
  split
  case isTrue hlt =>
    refine ⟨?_, Nat.le_refl _⟩
    refine (Nat.le_div_iff_mul_le hh).mpr ?_
    calc slot_w * h ≤ w * slot_h := Nat.le_of_lt hlt
      _ = slot_h * w := Nat.mul_comm w slot_h
  case isFalse hge =>
    refine ⟨Nat.le_refl _, ?_⟩
    refine (Nat.le_div_iff_mul_le hw).mpr ?_
    calc slot_h * w = w * slot_h := Nat.mul_comm slot_h w
      _ ≤ slot_w * h := Nat.le_of_not_lt hge

theorem upscaleStage_pos (P : PILOps) (img : Image) (slot_w slot_h : Nat) (u : Bool)
    (hw : 0 < img.width) (hh : 0 < img.height) :
    0 < (upscaleStage P img slot_w slot_h u).width ∧
    0 < (upscaleStage P img slot_w slot_h u).height := by
  unfold upscaleStage
  split
  case isTrue hcond =>
    split
    case isTrue hsmall =>
      split
      case isTrue hmax =>
        -- scale = slot_w/width: the new size is (slot_w, height*slot_w/width)
        have hwlt : img.width < slot_w := by
          rcases hsmall with hs | hs
          · exact hs
          · -- height < slot_h together with slot_w*height ≥ slot_h*width forces width < slot_w
            have hslh : 0 < slot_h := by omega
            have h4 : 0 < slot_w * img.height :=
              Nat.lt_of_lt_of_le (Nat.mul_pos hslh hw) hmax
            have hslw : 0 < slot_w := by
              rcases Nat.eq_zero_or_pos slot_w with h0 | h0
              · rw [h0, Nat.zero_mul] at h4
                exact absurd h4 (Nat.lt_irrefl 0)
              · exact h0
            have h5 : slot_h * img.width < slot_h * slot_w := by
              calc slot_h * img.width ≤ slot_w * img.height := hmax
                _ < slot_w * slot_h := mul_lt_mul_of_pos_left hs hslw
                _ = slot_h * slot_w := Nat.mul_comm _ _
            exact Nat.lt_of_mul_lt_mul_left h5
        constructor
        · simp only [resize]
          omega
        · simp only [resize]
          refine Nat.div_pos (Nat.le_of_lt ?_) hw
          calc img.width < slot_w := hwlt
            _ ≤ img.height * slot_w := Nat.le_mul_of_pos_left slot_w hh
      case isFalse hmax =>
        -- scale = slot_h/height: the new size is (width*slot_h/height, slot_h)
        have h2 : slot_w * img.height < slot_h * img.width := Nat.lt_of_not_le hmax
        have hhlt : img.height < slot_h := by
          rcases hsmall with hs | hs
          · have hslw : 0 < slot_w := by omega
            have h5 : slot_w * img.height < slot_w * slot_h := by
              calc slot_w * img.height < slot_h * img.width := h2
                _ ≤ slot_h * slot_w := Nat.mul_le_mul_left slot_h (Nat.le_of_lt hs)
                _ = slot_w * slot_h := Nat.mul_comm _ _
            exact Nat.lt_of_mul_lt_mul_left h5
          · exact hs
        constructor
        · simp only [resize]
          refine Nat.div_pos (Nat.le_of_lt ?_) hh
          calc img.height < slot_h := hhlt
            _ ≤ img.width * slot_h := Nat.le_mul_of_pos_left slot_h hw
        · simp only [resize]
          omega
    case isFalse => exact ⟨hw, hh⟩
  case isFalse => exact ⟨hw, hh⟩

/-- C5: for positive source and target sizes, the pre-crop fit-size
candidate dominates the target in both dimensions, so the center-crop
window, computed with Python floor division, lies inside the resized
raster and no padding is needed. -/
theorem fit_candidate_covers_slot (P : PILOps) (img : Image) (slot_w slot_h : Nat) (u : Bool)
    (hw : 0 < img.width) (hh : 0 < img.height) (hsw : 0 < slot_w) (hsh : 0 < slot_h) :
    let img1 := upscaleStage P img slot_w slot_h u
    let c := fitCandidate img1.width img1.height slot_w slot_h
    slot_w ≤ c.1 ∧ slot_h ≤ c.2 ∧
      0 ≤ ((c.1 : Int) - (slot_w : Int)).fdiv 2 ∧
      ((c.1 : Int) - (slot_w : Int)).fdiv 2 + (slot_w : Int) ≤ (c.1 : Int) ∧
      0 ≤ ((c.2 : Int) - (slot_h : Int)).fdiv 2 ∧
      ((c.2 : Int) - (slot_h : Int)).fdiv 2 + (slot_h : Int) ≤ (c.2 : Int) := by
  dsimp only
  obtain ⟨h1, h2⟩ := upscaleStage_pos P img slot_w slot_h u hw hh
  obtain ⟨hcw, hch⟩ := fitCandidate_ge (upscaleStage P img slot_w slot_h u).width
    (upscaleStage P img slot_w slot_h u).height slot_w slot_h h1 h2
  obtain ⟨hb1, hb2⟩ := fdiv2_bounds
    (((fitCandidate (upscaleStage P img slot_w slot_h u).width
        (upscaleStage P img slot_w slot_h u).height slot_w slot_h).1 : Int) - (slot_w : Int))
    (by omega)
  obtain ⟨hb3, hb4⟩ := fdiv2_bounds
    (((fitCandidate (upscaleStage P img slot_w slot_h u).width
        (upscaleStage P img slot_w slot_h u).height slot_w slot_h).2 : Int) - (slot_h : Int))
    (by omega)
  exact ⟨hcw, hch, hb1, by omega, hb3, by omega⟩

theorem fit_candidate_covers_slot_witness :
    let img1 := upscaleStage P0 (solid 100 300 Mode.RGBA ⟨1, 2, 3, 255⟩) 530 355 true
    let c := fitCandidate img1.width img1.height 530 355
    530 ≤ c.1 ∧ 355 ≤ c.2 ∧
      0 ≤ ((c.1 : Int) - (530 : Int)).fdiv 2 ∧
      ((c.1 : Int) - (530 : Int)).fdiv 2 + (530 : Int) ≤ (c.1 : Int) ∧
      0 ≤ ((c.2 : Int) - (355 : Int)).fdiv 2 ∧
      ((c.2 : Int) - (355 : Int)).fdiv 2 + (355 : Int) ≤ (c.2 : Int) :=
  fit_candidate_covers_slot P0 (solid 100 300 Mode.RGBA ⟨1, 2, 3, 255⟩) 530 355 true
    (by decide) (by decide) (by decide) (by decide)

theorem fit_dpi (P : PILOps) (img : Image) (slot_w slot_h : Nat)
    (sharpen upscale_if_small : Bool) (target_dpi : Nat) :
    (fit_image_to_slot P img slot_w slot_h sharpen upscale_if_small target_dpi).dpi
      = some (target_dpi, target_dpi) := by
  unfold fit_image_to_slot
  dsimp only
  exact stampDpi_dpi _ _

/-! ## Alpha-aware pasting (PIL Image.paste with a mask, app.py line 165) -/

/-- Per-channel blend of the C paste routine for mask value m:
(dst * (255 - m) + src * m) / 255 with integer division. -/
def blendChan (m d s : Nat) : Nat := (d * (255 - m) + s * m) / 255

def blendPixel (m : Nat) (d s : Pixel) : Pixel :=
  ⟨blendChan m d.r s.r, blendChan m d.g s.g, blendChan m d.b s.b, blendChan m d.a s.a⟩

/-- PIL Image.paste(im, (x, y), mask): the affected region is the box of
the source size clipped to the destination canvas; an RGBA mask blends
with its alpha band and an L mask with its gray value; any other mask mode
raises ValueError, the bad transparency mask error.  The program always
passes the pasted image itself as the mask. -/
def Image.paste (dst src : Image) (x y : Nat) (mask : Image) : Except String Image :=
  match mask.mode with
  | Mode.RGBA =>
      Except.ok { dst with
        pix := fun i j =>
          if x ≤ i ∧ i < x + src.width ∧ i < dst.width ∧
              y ≤ j ∧ j < y + src.height ∧ j < dst.height then
            blendPixel (mask.pix (i - x) (j - y)).a (dst.pix i j) (src.pix (i - x) (j - y))
          else dst.pix i j }
  | Mode.L =>
      Except.ok { dst with
        pix := fun i j =>
          if x ≤ i ∧ i < x + src.width ∧ i < dst.width ∧
              y ≤ j ∧ j < y + src.height ∧ j < dst.height then
            blendPixel (mask.pix (i - x) (j - y)).r (dst.pix i j) (src.pix (i - x) (j - y))
          else dst.pix i j }
  | _ => Except.error ("bad transparency mask")

theorem blendChan_full_mask (d s : Nat) : blendChan 255 d s = s := by
  unfold blendChan
  omega

theorem blendPixel_full_mask (d s : Pixel) : blendPixel 255 d s = s := by
  unfold blendPixel
  rw [blendChan_full_mask, blendChan_full_mask, blendChan_full_mask, blendChan_full_mask]

theorem paste_ok_dims (dst src : Image) (x y : Nat) (mask out : Image)
    (h : dst.paste src x y mask = Except.ok out) :
    out.width = dst.width ∧ out.height = dst.height := by
  unfold Image.paste at h
  split at h
  · injection h with h1
    subst h1
    exact ⟨rfl, rfl⟩
  · injection h with h1
    subst h1
    exact ⟨rfl, rfl⟩
  · exact absurd h (by simp)

theorem paste_pix_outside (dst src : Image) (x y : Nat) (mask out : Image) (i j : Nat)
    (h : dst.paste src x y mask = Except.ok out)
    (hij : ¬ (x ≤ i ∧ i < x + src.width ∧ y ≤ j ∧ j < y + src.height)) :
    out.pix i j = dst.pix i j := by
  unfold Image.paste at h
  split at h
  · injection h with h1
    subst h1
    dsimp only
    rw [if_neg]
    intro hc
    exact hij ⟨hc.1, hc.2.1, hc.2.2.2.1, hc.2.2.2.2.1⟩
  · injection h with h1
    subst h1
    dsimp only
    rw [if_neg]
    intro hc
    exact hij ⟨hc.1, hc.2.1, hc.2.2.2.1, hc.2.2.2.2.1⟩
  · exact absurd h (by simp)

/-- C2 (amended): pasting a fully opaque RGBA fitted raster with itself as
the mask replaces every canvas pixel of the slot rectangle with the fitted
raster pixel, unchanged; but when the fitted raster has no alpha channel
(mode RGB) the paste raises the bad transparency mask error instead of
treating it as fully opaque. -/
theorem paste_opaque_replacement_amended :
    (∀ (dst src : Image) (x y : Nat) (out : Image),
        src.mode = Mode.RGBA →
        (∀ i, i < src.width → ∀ j, j < src.height → (src.pix i j).a = 255) →
        dst.paste src x y src = Except.ok out →
        ∀ i j, x ≤ i → i < x + src.width → i < dst.width →
          y ≤ j → j < y + src.height → j < dst.height →
          out.pix i j = src.pix (i - x) (j - y)) ∧
    (∀ (dst src : Image) (x y : Nat), src.mode = Mode.RGB →
        dst.paste src x y src = Except.error ("bad transparency mask")) := by
  constructor
  · intro dst src x y out hmode hop hok i j hx1 hx2 hx3 hy1 hy2 hy3
    unfold Image.paste at hok
    rw [hmode] at hok
    dsimp only at hok
    injection hok with h1
    subst h1
    dsimp only
    rw [if_pos ⟨hx1, hx2, hx3, hy1, hy2, hy3⟩]
    rw [hop (i - x) (by omega) (j - y) (by omega)]
    exact blendPixel_full_mask _ _
  · intro dst src x y hmode
    unfold Image.paste
    rw [hmode]

def tinyTemplate : Image := solid 3 3 Mode.RGBA ⟨10, 20, 30, 255⟩

def tinySrc : Image := solid 2 2 Mode.RGBA ⟨100, 110, 120, 255⟩

def tinyRGB : Image := solid 2 2 Mode.RGB ⟨1, 2, 3, 255⟩

def pasteOut (dst src : Image) (x y : Nat) (mask : Image) : Image :=
  match dst.paste src x y mask with
  | Except.ok o => o
  | Except.error _ => default

theorem paste_opaque_replacement_amended_witness :
    (pasteOut tinyTemplate tinySrc 0 0 tinySrc).pix 1 1 = tinySrc.pix 1 1 ∧
      tinyTemplate.paste tinyRGB 0 0 tinyRGB = Except.error ("bad transparency mask") :=
  ⟨paste_opaque_replacement_amended.1 tinyTemplate tinySrc 0 0
      (pasteOut tinyTemplate tinySrc 0 0 tinySrc) rfl (by decide) rfl 1 1
      (by decide) (by decide) (by decide) (by decide) (by decide) (by decide),
   paste_opaque_replacement_amended.2 tinyTemplate tinyRGB 0 0 rfl⟩

/-- A 100 by 100 RGB photo carrying an embedded ICC profile: on it the
Normalizer (with a succeeding transform, as for any well-formed profile)
returns a mode RGB raster, so the fitted raster has no alpha channel. -/
def photoRGBProfiled : Image := { solid 100 100 Mode.RGB ⟨230, 20, 20, 255⟩ with icc := some 0 }

def fittedRGB : Image :=
  fit_image_to_slot Pok (convert_to_srgb Pok.cms photoRGBProfiled) 530 355 false true 300

def bigTemplate : Image := solid 600 800 Mode.RGBA ⟨10, 20, 30, 255⟩

/-- C2 (counterexample): the fitted raster of an RGB photo with an ICC
profile has no alpha channel, and pasting it at slot 1 the way the
composition loop does raises the bad transparency mask error instead of
being treated as fully opaque. -/
theorem paste_rgb_mask_fails_cx :
    bigTemplate.paste fittedRGB 35 35 fittedRGB = Except.error ("bad transparency mask") := rfl

/-! ## The /generate composition driver (app.py lines 137-179) -/

/-- A slot rectangle (origin_x, origin_y, width, height) in template pixel
coordinates. -/
structure Slot where
  x : Nat
  y : Nat
  w : Nat
  h : Nat
deriving DecidableEq

/-- app.py lines 12-17: the fixed slot table of this deployment. -/
def SLOTS : List Slot :=
  [⟨35, 35, 530, 355⟩, ⟨35, 429, 530, 355⟩, ⟨35, 821, 530, 355⟩, ⟨35, 1208, 530, 355⟩]

/-- The multipart inputs of a /generate request: the template upload and
the four optional photo uploads. -/
structure Request where
  template : Option Image
  photo1 : Option Image
  photo2 : Option Image
  photo3 : Option Image
  photo4 : Option Image

/-- app.py line 152: the list of the four optional photo uploads, in slot
order. -/
def photo_files (req : Request) : List (Option Image) :=
  [req.photo1, req.photo2, req.photo3, req.photo4]

/-- One iteration of the composition loop (app.py lines 154-165): a present
photo is normalized, fitted to the slot size with sharpening off, upscaling
on and 300 dpi, and pasted at the slot origin with itself as the mask; an
absent photo leaves the template untouched.  A paste error aborts the loop
(the exception propagates out of the handler). -/
def composeStep (P : PILOps) (acc : Except String Image) (sp : Slot × Option Image) :
    Except String Image :=
  match acc with
  | Except.error e => Except.error e
  | Except.ok template =>
      match sp.2 with
      | none => Except.ok template
      | some photo_file =>
          let img := convert_to_srgb P.cms photo_file
          let img2 := fit_image_to_slot P img sp.1.w sp.1.h false true 300
          template.paste img2 sp.1.x sp.1.y img2

def composeLoop (P : PILOps) (template : Image) (pairs : List (Slot × Option Image)) :
    Except String Image :=
  pairs.foldl (composeStep P) (Except.ok template)

/-- The Template Raster: the uploaded template normalized, with its dpi
entry defaulted to (300, 300) (app.py lines 146-149). -/
def templateRaster (P : PILOps) (template_file : Image) : Image :=
  { convert_to_srgb P.cms template_file with
    dpi := some ((convert_to_srgb P.cms template_file).dpi.getD (300, 300)) }

/-- The PNG encoding call template.save(output, PNG, compress_level 0,
dpi (300, 300)) at app.py lines 171-176: the encoded container carries the
final image and the explicit metadata. -/
structure EncodedPng where
  image : Image
  compressLevel : Nat
  dpi : Nat × Nat

/-- Embedding of the /generate handler (app.py lines 137-179).  A request
without a template is rejected up front; otherwise photos are composited
slot by slot onto the normalized template and the result is PNG-encoded
with zero compression and 300 dpi. -/
def generate (P : PILOps) (req : Request) : Except String EncodedPng :=
  match req.template with
  | none => Except.error ("No template uploaded")
  | some template_file =>
      match composeLoop P (templateRaster P template_file) (SLOTS.zip (photo_files req)) with
      | Except.error e => Except.error e
      | Except.ok template => Except.ok ⟨template, 0, (300, 300)⟩

/-- Membership of the pixel (i, j) in the rectangle of a slot. -/
def inRect (s : Slot) (i j : Nat) : Prop :=
  s.x ≤ i ∧ i < s.x + s.w ∧ s.y ≤ j ∧ j < s.y + s.h

instance (s : Slot) (i j : Nat) : Decidable (inRect s i j) := by
  unfold inRect
  infer_instance

theorem composeStep_error (P : PILOps) (e : String) (sp : Slot × Option Image) :
    composeStep P (Except.error e) sp = Except.error e := rfl

theorem foldl_composeStep_error (P : PILOps) (pairs : List (Slot × Option Image)) (e : String) :
    pairs.foldl (composeStep P) (Except.error e) = Except.error e := by
  induction pairs with
  | nil => rfl
  | cons sp rest ih =>
      rw [List.foldl_cons, composeStep_error]
      exact ih

/-- Invariant of the composition loop: a completed loop keeps the template
size, and a pixel lying outside every supplied slot rectangle keeps its
template value. -/
theorem composeLoop_preserves (P : PILOps) (pairs : List (Slot × Option Image)) :
    ∀ t out, composeLoop P t pairs = Except.ok out →
      out.width = t.width ∧ out.height = t.height ∧
      ∀ i j, (∀ sp ∈ pairs, sp.2.isSome = true → ¬ inRect sp.1 i j) →
        out.pix i j = t.pix i j := by
  induction pairs with
  | nil =>
      intro t out h
      unfold composeLoop at h
      rw [List.foldl_nil] at h
      injection h with h1
      subst h1
      exact ⟨rfl, rfl, fun i j _ => rfl⟩
  | cons sp rest ih =>
      intro t out h
      unfold composeLoop at h
      rw [List.foldl_cons] at h
      cases hp : sp.2 with
      | none =>
          have hstep : composeStep P (Except.ok t) sp = Except.ok t := by
            unfold composeStep
            rw [hp]
          rw [hstep] at h
          obtain ⟨h1, h2, h3⟩ := ih t out h
          exact ⟨h1, h2, fun i j hout =>
            h3 i j (fun q hq => hout q (List.mem_cons_of_mem sp hq))⟩
      | some photo_file =>
          set fimg := fit_image_to_slot P (convert_to_srgb P.cms photo_file) sp.1.w sp.1.h
            false true 300 with hfimg
          have hstep : composeStep P (Except.ok t) sp = t.paste fimg sp.1.x sp.1.y fimg := by
            unfold composeStep
            rw [hp]
          rw [hstep] at h
          cases hpaste : t.paste fimg sp.1.x sp.1.y fimg with
          | error e =>
              rw [hpaste, foldl_composeStep_error] at h
              exact absurd h (by simp)
          | ok t2 =>
              rw [hpaste] at h
              obtain ⟨h1, h2, h3⟩ := ih t2 out h
              obtain ⟨hd1, hd2⟩ := paste_ok_dims t fimg sp.1.x sp.1.y fimg t2 hpaste
              refine ⟨h1.trans hd1, h2.trans hd2, ?_⟩
              intro i j hout
              have hnotin : ¬ inRect sp.1 i j := by
                refine hout sp (List.mem_cons_self sp rest) ?_
                rw [hp]
                rfl
              have hrest : out.pix i j = t2.pix i j :=
                h3 i j (fun q hq => hout q (List.mem_cons_of_mem sp hq))
              have hfit := fit_dims P (convert_to_srgb P.cms photo_file) sp.1.w sp.1.h
                false true 300
              have hlast : t2.pix i j = t.pix i j := by
                refine paste_pix_outside t fimg sp.1.x sp.1.y fimg t2 i j hpaste ?_
                intro hc
                apply hnotin
                rw [hfimg, hfit.1, hfit.2] at hc
                exact hc
              exact hrest.trans hlast

/-- Elimination for a successful /generate run: the outcome is the encoded
composition-loop result with zero compression and 300 dpi. -/
theorem generate_ok_elim (P : PILOps) (req : Request) (template_file : Image) (out : EncodedPng)
    (htpl : req.template = some template_file)
    (h : generate P req = Except.ok out) :
    ∃ t, composeLoop P (templateRaster P template_file) (SLOTS.zip (photo_files req))
        = Except.ok t ∧ out = ⟨t, 0, (300, 300)⟩ := by
  unfold generate at h
  rw [htpl] at h
  dsimp only at h
  cases hcl : composeLoop P (templateRaster P template_file) (SLOTS.zip (photo_files req)) with
  | error e =>
      rw [hcl] at h
      exact absurd h (by simp)
  | ok t =>
      rw [hcl] at h
      dsimp only at h
      injection h with h1
      exact ⟨t, rfl, h1.symm⟩

/-- C3: across the composition loop of /generate the Template Raster keeps
its width and height; pixels outside the slot rectangles of supplied photos
are never modified; and the rectangle of every slot whose photo is absent
still holds exactly the Template Raster pixel content. -/
theorem generate_frame_effect (P : PILOps) (req : Request) (template_file : Image)
    (out : EncodedPng) (htpl : req.template = some template_file)
    (h : generate P req = Except.ok out) :
    out.image.width = (templateRaster P template_file).width ∧
    out.image.height = (templateRaster P template_file).height ∧
    (∀ i j, (∀ sp ∈ SLOTS.zip (photo_files req), sp.2.isSome = true → ¬ inRect sp.1 i j) →
      out.image.pix i j = (templateRaster P template_file).pix i j) ∧
    (∀ sp ∈ SLOTS.zip (photo_files req), sp.2 = none → ∀ i j, inRect sp.1 i j →
      out.image.pix i j = (templateRaster P template_file).pix i j) := by
  obtain ⟨t, hcl, hout⟩ := generate_ok_elim P req template_file out htpl h
  subst hout
  obtain ⟨h1, h2, h3⟩ := composeLoop_preserves P (SLOTS.zip (photo_files req))
    (templateRaster P template_file) t hcl
  refine ⟨h1, h2, h3, ?_⟩
  intro sp hsp hnone i j hin
  apply h3 i j
  intro q hq hqs
  have hpairs : SLOTS.zip (photo_files req)
      = [(⟨35, 35, 530, 355⟩, req.photo1), (⟨35, 429, 530, 355⟩, req.photo2),
         (⟨35, 821, 530, 355⟩, req.photo3), (⟨35, 1208, 530, 355⟩, req.photo4)] := rfl
  rw [hpairs] at hsp hq
  simp only [List.mem_cons, List.not_mem_nil, or_false] at hsp hq
  rcases hsp with rfl | rfl | rfl | rfl <;> rcases hq with rfl | rfl | rfl | rfl <;>
    dsimp only at hnone hqs hin ⊢ <;>
    first
      | (rw [hnone] at hqs; exact absurd hqs (by simp))
      | (unfold inRect at hin ⊢; dsimp only at hin ⊢; omega)

def okPng (e : Except String EncodedPng) : EncodedPng :=
  match e with
  | Except.ok o => o
  | Except.error _ => ⟨default, 0, (0, 0)⟩

def reqNoPhotos : Request := ⟨some bigTemplate, none, none, none, none⟩

theorem generate_frame_effect_witness :
    (okPng (generate P0 reqNoPhotos)).image.width = (templateRaster P0 bigTemplate).width ∧
    (okPng (generate P0 reqNoPhotos)).image.pix 34 34
      = (templateRaster P0 bigTemplate).pix 34 34 ∧
    (okPng (generate P0 reqNoPhotos)).image.pix 40 430
      = (templateRaster P0 bigTemplate).pix 40 430 := by
  obtain ⟨h1, h2, h3, h4⟩ := generate_frame_effect P0 reqNoPhotos bigTemplate
    (okPng (generate P0 reqNoPhotos)) rfl rfl
  refine ⟨h1, ?_, ?_⟩
  · exact h3 34 34 (by decide)
  · exact h4 (⟨35, 429, 530, 355⟩, none)
      (List.mem_cons_of_mem _ (List.mem_cons_self _ _)) rfl 40 430 (by decide)

/-- C7 (counterexample): a request carrying a template but no photo at all
is not rejected: /generate completes successfully, returning an encoded
image. -/
theorem generate_all_photos_absent_ok_cx :
    (generate P0 reqNoPhotos).isOk = true := rfl

/-- C7 (amended): a /generate request without a template is rejected with
the no-template error before any pipeline work; but a request whose four
photo inputs are all absent is not rejected: the pipeline runs and returns
the encoded normalized template. -/
theorem generate_input_validation_amended :
    (∀ (P : PILOps) (req : Request), req.template = none →
        generate P req = Except.error ("No template uploaded")) ∧
    (∀ (P : PILOps) (req : Request) (template_file : Image),
        req.template = some template_file →
        req.photo1 = none → req.photo2 = none → req.photo3 = none → req.photo4 = none →
        (generate P req).isOk = true) := by
  constructor
  · intro P req h
    unfold generate
    rw [h]
  · intro P req template_file h h1 h2 h3 h4
    unfold generate
    rw [h]
    dsimp only
    have hloop : composeLoop P (templateRaster P template_file) (SLOTS.zip (photo_files req))
        = Except.ok (templateRaster P template_file) := by
      unfold composeLoop photo_files
      rw [h1, h2, h3, h4]
      rfl
    rw [hloop]
    rfl

def reqNoTemplate : Request := ⟨none, none, none, none, none⟩

theorem generate_input_validation_amended_witness :
    generate P0 reqNoTemplate = Except.error ("No template uploaded") ∧
      (generate P0 reqNoPhotos).isOk = true :=
  ⟨generate_input_validation_amended.1 P0 reqNoTemplate rfl,
   generate_input_validation_amended.2 P0 reqNoPhotos bigTemplate rfl rfl rfl rfl rfl⟩

/-- C8: the Slot Fitter output always carries dpi metadata
(target_dpi, target_dpi) whatever the source dpi was (present or absent),
and the encoded output of /generate always carries dpi exactly (300, 300)
whatever the template dpi was. -/
theorem dpi_stamping :
    (∀ (P : PILOps) (img : Image) (slot_w slot_h : Nat) (sharpen upscale_if_small : Bool)
        (target_dpi : Nat),
        (fit_image_to_slot P img slot_w slot_h sharpen upscale_if_small target_dpi).dpi
          = some (target_dpi, target_dpi)) ∧
    (∀ (P : PILOps) (req : Request) (template_file : Image) (out : EncodedPng),
        req.template = some template_file →
        generate P req = Except.ok out → out.dpi = (300, 300)) := by
  constructor
  · exact fit_dpi
  · intro P req template_file out htpl h
    obtain ⟨t, hcl, hout⟩ := generate_ok_elim P req template_file out htpl h
    subst hout
    rfl

theorem dpi_stamping_witness :
    (fit_image_to_slot P0 (solid 4 4 Mode.RGBA ⟨9, 9, 9, 255⟩) 2 2 true false 300).dpi
        = some (300, 300) ∧
      (okPng (generate P0 reqNoPhotos)).dpi = (300, 300) :=
  ⟨dpi_stamping.1 P0 (solid 4 4 Mode.RGBA ⟨9, 9, 9, 255⟩) 2 2 true false 300,
   dpi_stamping.2 P0 reqNoPhotos bigTemplate (okPng (generate P0 reqNoPhotos)) rfl rfl⟩

/-! ## Persisted file naming (/save_locally, app.py lines 219-241) -/

/-- app.py lines 219-241: the filename of the persisted multi-copy image.
tag_name is the stripped tagName form value (empty when absent; Python
truthiness of the string selects the frame_ fallback); timestamp is the
strftime YYYYMMDD_HHMMSS value; copy_count is the clamped copy count. -/
def multi_filename (tag_name timestamp : String) (copy_count : Nat) : String :=
  if tag_name ≠ "" then
    if copy_count > 1 then
      tag_name ++ "_" ++ timestamp ++ "_" ++ toString copy_count ++ "x.png"
    else
      tag_name ++ "_" ++ timestamp ++ ".png"
  else
    if copy_count > 1 then
      "frame_" ++ timestamp ++ "_" ++ toString copy_count ++ "x.png"
    else
      "frame_" ++ timestamp ++ ".png"

/-- The naming convention exactly as the spec states it: the optional
tag prefix (present exactly when a tag is supplied), the timestamp, the
_Nx suffix exactly when the copy count N exceeds 1, and the extension. -/
def specFilename (tag_name timestamp : String) (copy_count : Nat) : String :=
  (if tag_name ≠ "" then tag_name ++ "_" else "") ++ timestamp ++
    (if copy_count > 1 then "_" ++ toString copy_count ++ "x" else "") ++ ".png"

/-- C9 (counterexample): with no tag supplied, a single copy and timestamp
20240101_120000, the code names the file frame_20240101_120000.png, not
20240101_120000.png as the stated convention demands. -/
theorem filename_no_tag_cx :
    multi_filename "" "20240101_120000" 1 ≠ specFilename "" "20240101_120000" 1 ∧
      multi_filename "" "20240101_120000" 1 = "frame_20240101_120000.png" := by
  constructor
  · decide
  · rfl

/-- The convention the code actually implements: the prefix is the tag
followed by an underscore when a tag is supplied and the literal frame_
otherwise, then the timestamp, then _Nx exactly when the copy count N
exceeds 1, then the .png extension. -/
def correctedFilename (tag_name timestamp : String) (copy_count : Nat) : String :=
  (if tag_name ≠ "" then tag_name ++ "_" else "frame_") ++ timestamp ++
    (if copy_count > 1 then "_" ++ toString copy_count ++ "x" else "") ++ ".png"

/-- C9 (amended): every persisted file is named
tag_ then timestamp then optional _Nx then .png when a tag is supplied,
and frame_ then timestamp then optional _Nx then .png when not; the
timestamp always appears and the _Nx copy-count suffix appears exactly
when the copy count exceeds 1. -/
theorem filename_convention_amended (tag_name timestamp : String) (copy_count : Nat) :
    multi_filename tag_name timestamp copy_count
      = correctedFilename tag_name timestamp copy_count := by
  unfold multi_filename correctedFilename
  split_ifs <;> simp [String.append_assoc]

end PhotoFrame
